import Mathlib

/-!
Shallow embedding of the purchase-tracker pipeline
(`backend/app/services/footlocker_parser.py`,
`backend/app/services/prepworx_parser.py`,
`backend/app/services/retailer_order_processor.py`).

Strings are modelled as Lean `String`s, machine integers as `Nat`/`Int`
(no overflow is reachable on the quantities involved), database sessions as
explicit record stores threaded through the functions, and the regular
expressions of the source as equivalent character-level matchers.
-/

namespace PT0

/-! ## Generic string helpers (character-level models of the regexes used) -/

/-- Python `pat in hay` (substring containment, case sensitive). -/
def listContainsSub (pat : List Char) : List Char → Bool
  | [] => pat.isEmpty
  | c :: rest => pat.isPrefixOf (c :: rest) || listContainsSub pat rest

/-- Python `pat in hay` on strings. -/
def containsSub (hay pat : String) : Bool := listContainsSub pat.data hay.data

/-- Numeric value of a digit string (most significant first). -/
def digitsToNat (l : List Char) : Nat :=
  l.foldl (fun n c => n * 10 + (c.toNat - '0'.toNat)) 0

/-- `\d{1,2}`: one or two characters, all digits. -/
def intFormat (l : List Char) : Bool :=
  (l.length == 1 || l.length == 2) && l.all (·.isDigit)

/-- `^\d{1,2}\.\d$`: one or two digits, a dot, one digit. -/
def decFormat : List Char → Bool
  | [a, d, c] => a.isDigit && d == '.' && c.isDigit
  | [a, b, d, c] => a.isDigit && b.isDigit && d == '.' && c.isDigit
  | _ => false

/-- `^\d{1,2}(\.\d)?SUF$` (or without the decimal option), case-insensitive
suffix letter, as in the youth/toddler/infant/wide size patterns. -/
def suffixSize (allowDec : Bool) (suf : Char) (l : List Char) : Bool :=
  match l.getLast? with
  | some c => (c.toLower == suf) && (intFormat l.dropLast || (allowDec && decFormat l.dropLast))
  | none => false

/-- Absolute difference of positions, `abs (i - j)` in the source. -/
def natDist (i j : Nat) : Nat := max i j - min i j

namespace FootlockerEmailParser

/-- `FootlockerEmailParser._is_valid_size`: the branch ladder of the source.
The decimal branch (`^\d{1,2}\.\d$`) has no numeric range check; only the
whole-number branch checks `4 <= num <= 18`. -/
def is_valid_size (s : String) : Bool :=
  let l := s.data
  if decFormat l then true
  else if intFormat l then decide (4 ≤ digitsToNat l) && decide (digitsToNat l ≤ 18)
  else if suffixSize true 'y' l then true
  else if suffixSize false 't' l then true
  else if suffixSize false 'c' l then true
  else if suffixSize true 'w' l then true
  else if !l.isEmpty && l.all (fun c => c.toLower == 's' || c.toLower == 'm'
                                  || c.toLower == 'l' || c.toLower == 'x') then true
  else if l.map Char.toLower == "os".data || l.map Char.toLower == "osfm".data then true
  else false

/-- `FootlockerEmailParser._is_valid_quantity`: all digits and `1 <= n <= 20`. -/
def is_valid_quantity (s : String) : Bool :=
  let l := s.data
  (!l.isEmpty && l.all (·.isDigit))
    && (decide (1 ≤ digitsToNat l) && decide (digitsToNat l ≤ 20))

/-- `FootlockerEmailParser._clean_size`: on `^\d{1,2}\.\d$` strings take the
float and print it back (dropping a `.0` fraction and leading zeros — for
one-decimal-digit values Python's `str(float(s))` is exactly this); other
strings are returned unchanged. -/
def clean_size (s : String) : String :=
  let l := s.data
  if decFormat l then
    let intPart := digitsToNat (l.dropLast.dropLast)
    let frac := l.getLastD '0'
    if frac == '0' then toString intPart
    else toString intPart ++ "." ++ String.mk [frac]
  else s

/-- One `<span>` as consumed by `_extract_all_size_quantity_data`: its own
stripped text and its parent element's stripped text.  BeautifulSoup's
`find_all('span')` returns spans in document order, so a document is a list. -/
structure Span where
  text : String
  parentText : String
deriving Repr, DecidableEq

inductive FragType
  | size
  | quantity
deriving Repr, DecidableEq

/-- One entry of the `size_quantity_data` list (`type`/`value` keys of the
source dict; the `context`/`element` keys are never read by the matcher). -/
structure Fragment where
  type : FragType
  value : String
deriving Repr, DecidableEq

/-- `FootlockerEmailParser._extract_all_size_quantity_data`: classify every
span, in document order; a span whose parent text mentions both `Size` and
`Qty` can contribute both entries, size first, exactly as the two independent
`if`s of the source do. -/
def extract_all_size_quantity_data (spans : List Span) : List Fragment :=
  (spans.map (fun sp =>
    (if containsSub sp.parentText "Size" && is_valid_size sp.text
      then [Fragment.mk .size sp.text] else [])
    ++ (if containsSub sp.parentText "Qty" && is_valid_quantity sp.text
      then [Fragment.mk .quantity sp.text] else []))).flatten

/-- One candidate of the `available_pairs` list. -/
structure CandPair where
  size : String
  quantity : String
  distance : Nat
deriving Repr, DecidableEq

/-- The inner loop of `_find_matching_size_quantity_advanced`: for the size at
position `i`, the first quantity entry `j` (in list order) with `|i-j| <= 3`;
the `break` makes only that first one count. -/
def firstQtyInWindow (data : List Fragment) (i : Nat) : Option (Nat × String) :=
  (data.enum.find? (fun p => p.2.type == FragType.quantity && natDist i p.1 ≤ 3)).map
    (fun p => (p.1, p.2.value))

/-- `available_pairs` of `_find_matching_size_quantity_advanced`: one entry per
size fragment whose windowed first quantity forms a pair not already consumed. -/
def availablePairs (data : List Fragment) (used : List (String × String)) : List CandPair :=
  (data.enum.map (fun p =>
    if p.2.type == FragType.size then
      match firstQtyInWindow data p.1 with
      | some (j, q) =>
        if (p.2.value, q) ∈ used then []
        else [CandPair.mk p.2.value q (natDist p.1 j)]
      | none => []
    else [])).flatten

/-- `available_pairs.sort(key=distance)` (a stable sort) followed by `[0]`:
the leftmost pair of minimal distance. -/
def pickClosest : List CandPair → Option CandPair
  | [] => none
  | p :: rest =>
    match pickClosest rest with
    | none => some p
    | some q => if p.distance ≤ q.distance then some p else some q

/-- First fragment of the given type (the fallback of the matcher). -/
def firstOfType (data : List Fragment) (t : FragType) : Option String :=
  (data.find? (fun f => f.type == t)).map (·.value)

/-- `FootlockerEmailParser._find_matching_size_quantity_advanced`: take the
closest unused windowed pair; if none, fall back to the first size and first
quantity of the document — the fallback does not consult `used`. -/
def find_matching_size_quantity_advanced (data : List Fragment)
    (used : List (String × String)) : Option String × Option String :=
  match pickClosest (availablePairs data used) with
  | some p => (some p.size, some p.quantity)
  | none => (firstOfType data .size, firstOfType data .quantity)

/-- `re.search(r'/EBFL2/([A-Z0-9]+)', src)`: leftmost occurrence of
`/EBFL2/` followed by at least one `[A-Z0-9]` character; the capture is the
maximal such run. -/
def ebfl2Id : List Char → Option String
  | [] => none
  | c :: rest =>
    if "/EBFL2/".data.isPrefixOf (c :: rest) then
      let run := ((c :: rest).drop 7).takeWhile
        (fun ch => ('A' ≤ ch && ch ≤ 'Z') || ch.isDigit)
      if run.isEmpty then ebfl2Id rest else some (String.mk run)
    else ebfl2Id rest

/-- One extracted item.  The source also carries a `product_name` (scraped
from the image's container links); no claim concerns it and it feeds nothing
else, so it is omitted from the embedding. -/
structure FootlockerOrderItem where
  unique_id : String
  size : String
  quantity : Nat
deriving Repr, DecidableEq

/-- The per-image loop of `FootlockerEmailParser._extract_items`: the
`used_size_quantity` set (modelled as a list queried by membership) grows
whenever both components were found — before the validity check, exactly as in
the source — and an item is produced only when both components pass the
plausibility filters. -/
def extract_items_go (data : List Fragment) :
    List String → List (String × String) → List FootlockerOrderItem
  | [], _ => []
  | src :: rest, used =>
    match ebfl2Id src.data with
    | none => extract_items_go data rest used
    | some uid =>
      let sq := find_matching_size_quantity_advanced data used
      match sq.1, sq.2 with
      | some s, some q =>
        let used' := (s, q) :: used
        if is_valid_size s && is_valid_quantity q then
          FootlockerOrderItem.mk uid (clean_size s) (digitsToNat q.data)
            :: extract_items_go data rest used'
        else
          extract_items_go data rest used'
      | _, _ =>
        -- only one (or neither) component found: nothing marked used,
        -- and the item fails the `size and quantity and ...` validation
        extract_items_go data rest used

/-- `FootlockerEmailParser._extract_items`: the product anchors are the
`img` elements with `/EBFL2/` in `src` (document order), the candidate
fragments come from the whole document. -/
def extract_items (imageSrcs : List String) (spans : List Span) :
    List FootlockerOrderItem :=
  extract_items_go (extract_all_size_quantity_data spans) imageSrcs []

end FootlockerEmailParser

/-! ## Relational store (`backend/app/models/database.py`, the columns the
pipeline reads or writes) -/

/-- A `retailers` row (only `name` is consulted by the processor). -/
structure Retailer where
  name : String
deriving Repr, DecidableEq

/-- An `oa_sourcing` row (the sourcing-lead catalog). -/
structure OASourcing where
  id : Nat
  lead_id : String
  unique_id : String
  product_sku : Option String
  product_name : String
  rsp : Option Int
deriving Repr, DecidableEq

/-- An `asin_bank` row. -/
structure AsinBank where
  id : Nat
  lead_id : String
  asin : String
  size : Option String
deriving Repr, DecidableEq

/-- A `purchase_tracker` row as built by
`RetailerOrderProcessor._create_purchase_tracker_record` (the wall-clock
`date` column and the constant `platform="AMZ"` are omitted). -/
structure PurchaseTracker where
  oa_sourcing_id : Nat
  asin_bank_id : Option Nat
  lead_id : String
  order_number : String
  og_qty : Nat
  final_qty : Nat
  rsp : Option Int
  fba_msku : String
  status : String
  audited : Bool
deriving Repr, DecidableEq

/-- A `checkin` row as built by `PrepWorxCheckinProcessor.process_and_store`
(the wall-clock `checked_in_at` column is omitted). -/
structure Checkin where
  order_number : String
  item_name : String
  asin_bank_id : Nat
  quantity : Int
deriving Repr, DecidableEq

/-- The database session/state.  `session.add` is modelled as an append that
is immediately visible to later queries (SQLAlchemy autoflush), `commit`
keeps the rows; no exception paths are reachable in the embedding, so
`rollback` never fires.  `next_asin_id` models primary-key assignment at
flush time for new `asin_bank` rows. -/
structure Store where
  retailers : List Retailer
  oa_sourcing : List OASourcing
  asin_bank : List AsinBank
  purchases : List PurchaseTracker
  checkins : List Checkin
  next_asin_id : Nat
deriving Repr, DecidableEq

/-- SQL `ilike '%pat%'`: case-insensitive containment. -/
def ilike (hay pat : String) : Bool :=
  containsSub (String.mk (hay.data.map Char.toLower)) (String.mk (pat.data.map Char.toLower))

namespace RetailerOrderProcessor

open FootlockerEmailParser

/-- `FootlockerOrderData`: the parse result consumed by the processor. -/
structure FootlockerOrderData where
  order_number : String
  items : List FootlockerOrderItem
deriving Repr, DecidableEq

/-- `RetailerOrderProcessor._is_order_duplicate`: does any
`purchase_tracker` row carry this order number? -/
def is_order_duplicate (s : Store) (order_number : String) : Bool :=
  s.purchases.any (fun r => r.order_number == order_number)

/-- `RetailerOrderProcessor._create_purchase_tracker_record`: look up the
sourcing lead by `unique_id` (failure skips the item), look up the
`asin_bank` row by `(lead_id, size)` (absence is tolerated), derive the FBA
MSKU and append the record.  Returns the new store and the success flag. -/
def create_purchase_tracker_record (s : Store) (order_number : String)
    (item : FootlockerOrderItem) : Store × Bool :=
  match s.oa_sourcing.find? (fun oa => oa.unique_id == item.unique_id) with
  | none => (s, false)
  | some oa =>
    let asinRec := s.asin_bank.find? (fun a =>
      a.lead_id == oa.lead_id && a.size == some item.size)
    let sku_upc := oa.product_sku.getD "UNKNOWN"
    let fba_msku := item.size ++ "-" ++ sku_upc ++ "-" ++ order_number
    let rec1 : PurchaseTracker :=
      { oa_sourcing_id := oa.id
        asin_bank_id := asinRec.map (·.id)
        lead_id := oa.lead_id
        order_number := order_number
        og_qty := item.quantity
        final_qty := item.quantity
        rsp := oa.rsp
        fba_msku := fba_msku
        status := "Ordered"
        audited := false }
    ({ s with purchases := s.purchases ++ [rec1] }, true)

/-- The item loop of `RetailerOrderProcessor._process_order`:
returns the store and the `(created_count, skipped_count)` pair. -/
def process_items (order_number : String) : Store → List FootlockerOrderItem →
    Store × Nat × Nat
  | s, [] => (s, 0, 0)
  | s, item :: rest =>
    let c := create_purchase_tracker_record s order_number item
    let r := process_items order_number c.1 rest
    if c.2 then (r.1, r.2.1 + 1, r.2.2) else (r.1, r.2.1, r.2.2 + 1)

/-- `RetailerOrderProcessor._process_order`: find the Footlocker retailer,
create one record per reconciled item, commit, and fail when zero records
were created.  On the zero-created path the source commits the (empty)
transaction before returning failure; the rollback branch guards only
unexpected exceptions, which the embedding has none of. -/
def process_order (s : Store) (o : FootlockerOrderData) : Store × Bool × Option String :=
  match s.retailers.find? (fun r =>
      ilike r.name "Footlocker" || ilike r.name "Foot Locker") with
  | none => (s, false, some "Footlocker retailer not found in database")
  | some _ =>
    let r := process_items o.order_number s o.items
    if r.2.1 == 0 then
      (r.1, false, some ("No purchase tracker records created (skipped: "
        ++ toString r.2.2 ++ ")"))
    else (r.1, true, none)

/-- The per-email counters of the `results` dict of
`process_footlocker_emails` (restricted to one email). -/
structure EmailResult where
  processed : Nat
  skipped_duplicate : Nat
  errors : Nat
deriving Repr, DecidableEq

/-- The Gmail tag applied to the message
(`Retailer-Orders/Processed` / `Retailer-Orders/Error`). -/
inductive GTag
  | processedTag
  | errorTag
deriving Repr, DecidableEq

/-- The per-message body of the loop in
`RetailerOrderProcessor.process_footlocker_emails`, from the point where the
email has been parsed (`order_data` is the parser's result; `none` is the
parse-failure path): the duplicate check, the order processing, the counter
updates and the applied tag. -/
def process_footlocker_email (s : Store) (order_data : Option FootlockerOrderData) :
    Store × EmailResult × Option GTag :=
  match order_data with
  | none => (s, ⟨0, 0, 1⟩, some .errorTag)
  | some o =>
    if is_order_duplicate s o.order_number then
      (s, ⟨0, 1, 0⟩, some .processedTag)
    else
      let r := process_order s o
      if r.2.1 then (r.1, ⟨1, 0, 0⟩, some .processedTag)
      else (r.1, ⟨0, 0, 1⟩, some .errorTag)

end RetailerOrderProcessor

namespace PrepWorxEmailParser

/-- Python `s.strip()`: drop whitespace at both ends (computed on the
character list; `String.trim` itself does not reduce in the kernel). -/
def pyStrip (s : String) : String :=
  String.mk (((s.data.dropWhile (·.isWhitespace)).reverse.dropWhile
    (·.isWhitespace)).reverse)

/-- `[A-Z0-9]` (the ASIN character class). -/
def isAsinChar (c : Char) : Bool := ('A' ≤ c && c ≤ 'Z') || c.isDigit

/-- `int(s)`: optional surrounding whitespace, optional sign, digits. -/
def pyInt (s : String) : Option Int :=
  let l := s.data.dropWhile (·.isWhitespace)
  let l := (l.reverse.dropWhile (·.isWhitespace)).reverse
  match l with
  | '-' :: ds =>
    if !ds.isEmpty && ds.all (·.isDigit) then some (-(digitsToNat ds : Int)) else none
  | '+' :: ds =>
    if !ds.isEmpty && ds.all (·.isDigit) then some ((digitsToNat ds : Int)) else none
  | ds =>
    if !ds.isEmpty && ds.all (·.isDigit) then some ((digitsToNat ds : Int)) else none

/-- A separator of `re.split(r'[\s\-]+', ...)`. -/
def isSepChar (c : Char) : Bool := c.isWhitespace || c == '-'

/-- State machine for `re.split(r'[\s\-]+', s)`: `inRun` says the previous
character was a separator (so further separators extend the same run),
`cur` is the current token reversed. -/
def resplitGo (inRun : Bool) (cur : List Char) : List Char → List (List Char)
  | [] => [cur.reverse]
  | c :: rest =>
    if isSepChar c then
      if inRun then resplitGo true [] rest
      else cur.reverse :: resplitGo true [] rest
    else resplitGo false (c :: cur) rest

/-- `re.split(r'[\s\-]+', s)`: tokens between separator runs (an empty token
survives only at the very start or end of the string). -/
def resplit (l : List Char) : List (List Char) := resplitGo false [] l

/-- `^(\d{1,2}(?:\.\d{1,2})?)$` of `extract_size_from_item_name`. -/
def pwSizeFormat (l : List Char) : Bool :=
  let intPart := l.takeWhile (·.isDigit)
  let rest := l.drop intPart.length
  (1 ≤ intPart.length && intPart.length ≤ 2)
    && (rest.isEmpty
        || (rest.head? == some '.'
            && (let frac := (rest.drop 1)
                (1 ≤ frac.length && frac.length ≤ 2) && frac.all (·.isDigit))))

/-- `2.0 <= float(tok) <= 15.0` for a token of `pwSizeFormat` shape, computed
exactly on hundredths (the float comparison is exact for these values). -/
def pwSizeInRange (l : List Char) : Bool :=
  let intPart := l.takeWhile (·.isDigit)
  let frac := (l.drop intPart.length).drop 1
  let n100 := digitsToNat intPart * 100
    + (if frac.length == 1 then 10 * digitsToNat frac else digitsToNat frac)
  decide (200 ≤ n100) && decide (n100 ≤ 1500)

/-- `PrepWorxEmailParser.extract_size_from_item_name`: split on
whitespace/hyphen runs, scan the last four tokens (never the very first one)
from the end, and return the first token that is a one-or-two-digit number
(optionally with one or two decimals) whose value lies in `[2.0, 15.0]`. -/
def extract_size_from_item_name (item_name : String) : Option String :=
  let tokens := resplit (pyStrip item_name).data
  let n := tokens.length
  let lo := n - 5
  let idxs := (List.range (n - 1 - lo)).map (fun k => n - 1 - k)
  (idxs.find? (fun i =>
      let tok := tokens.getD i []
      pwSizeFormat tok && pwSizeInRange tok)).map
    (fun i => String.mk (tokens.getD i []))

/-- `re.search(r'-\s*([B][A-Z0-9]{9})\s*$', s)`: a hyphen, optional
whitespace, `B` plus nine ASIN characters, then only whitespace to the end. -/
def asinEndMatch : List Char → Option String
  | [] => none
  | c :: rest =>
    (if c == '-' then
      match rest.dropWhile (·.isWhitespace) with
      | 'B' :: t =>
        let nine := t.take 9
        if nine.length == 9 && nine.all isAsinChar
            && (t.drop 9).all (·.isWhitespace) then
          some (String.mk ('B' :: nine))
        else none
      | _ => none
    else none).orElse (fun _ => asinEndMatch rest)

/-- `re.search(r'-\s*([B][A-Z0-9]{9})', s)` (no end anchor): leftmost match. -/
def asinAnyMatch : List Char → Option String
  | [] => none
  | c :: rest =>
    (if c == '-' then
      match rest.dropWhile (·.isWhitespace) with
      | 'B' :: t =>
        let nine := t.take 9
        if nine.length == 9 && nine.all isAsinChar then
          some (String.mk ('B' :: nine))
        else none
      | _ => none
    else none).orElse (fun _ => asinAnyMatch rest)

/-- `hay.find(pat)`: index of the first occurrence, if any. -/
def findSub (hay pat : List Char) : Option Nat :=
  (List.range (hay.length + 1)).find? (fun i => pat.isPrefixOf (hay.drop i))

/-- `hay.rfind(pat)`: index of the last occurrence, if any. -/
def rfindSub (hay pat : List Char) : Option Nat :=
  ((List.range (hay.length + 1)).filter (fun i => pat.isPrefixOf (hay.drop i))).getLast?

/-- One parsed PrepWorx line item. -/
structure PrepWorxItem where
  item_name : String
  asin : String
  quantity : Int
  size : Option String
deriving Repr, DecidableEq

/-- `PrepWorxEmailParser._parse_item_from_table_cells`: ASIN anchored at the
end of the item cell, item name up to the last `" - " + asin`, quantity
`int(...)` of the second cell, size best-effort from the name. -/
def parse_item_from_table_cells (item_text quantity_text : String) :
    Option PrepWorxItem :=
  let clean_item := pyStrip item_text
  let clean_qty := pyStrip quantity_text
  match asinEndMatch clean_item.data with
  | none => none
  | some asin =>
    match rfindSub clean_item.data (" - " ++ asin).data with
    | none => none
    | some pos =>
      let item_name := pyStrip (String.mk (clean_item.data.take pos))
      if item_name == "" then none
      else
        match pyInt clean_qty with
        | none => none
        | some quantity =>
          some ⟨item_name, asin, quantity, extract_size_from_item_name item_name⟩

/-- `-?\d+` anchored at the start with maximal digits, then `\s*$`. -/
def intTokenEnd (l : List Char) : Option Int :=
  let core : List Char → Option Nat := fun ds =>
    let digits := ds.takeWhile (·.isDigit)
    if !digits.isEmpty && (ds.drop digits.length).all (·.isWhitespace) then
      some (digitsToNat digits)
    else none
  match l with
  | '-' :: ds => (core ds).map (fun n => -(n : Int))
  | ds => (core ds).map (fun n => (n : Int))

/-- `-?\d+` anchored at the start with maximal digits, no end anchor. -/
def intToken (l : List Char) : Option Int :=
  let core : List Char → Option Nat := fun ds =>
    let digits := ds.takeWhile (·.isDigit)
    if !digits.isEmpty then some (digitsToNat digits) else none
  match l with
  | '-' :: ds => (core ds).map (fun n => -(n : Int))
  | ds => (core ds).map (fun n => (n : Int))

/-- `re.search(r'\t\s*(-?\d+)\s*$', s)`: quantity after the leftmost tab that
is followed (modulo whitespace) by a final integer. -/
def tabQtyMatch : List Char → Option Int
  | [] => none
  | c :: rest =>
    (if c == '\t' then intTokenEnd (rest.dropWhile (·.isWhitespace))
     else none).orElse (fun _ => tabQtyMatch rest)

/-- `re.search(asin + r'\s+(-?\d+)', s)`: the integer after the leftmost
occurrence of the ASIN followed by at least one whitespace character. -/
def asinQtyMatch (asin : List Char) : List Char → Option Int
  | [] => none
  | c :: rest =>
    (if asin.isPrefixOf (c :: rest) then
      let after := (c :: rest).drop asin.length
      let ws := after.takeWhile (·.isWhitespace)
      if ws.isEmpty then none else intToken (after.drop ws.length)
    else none).orElse (fun _ => asinQtyMatch asin rest)

/-- `re.search(r'\s(-?\d+)\s*$', s)`: a final integer preceded by one
whitespace character. -/
def endQtyMatch : List Char → Option Int
  | [] => none
  | c :: rest =>
    (if c.isWhitespace then intTokenEnd rest else none).orElse
      (fun _ => endQtyMatch rest)

/-- Fuel-indexed body of `replaceSub`; every step consumes at least one
input character, so `l.length` fuel is always enough and the fuel-exhausted
arm is unreachable. -/
def replaceSubGo (pat rep : List Char) : Nat → List Char → List Char
  | 0, l => l
  | _ + 1, [] => []
  | n + 1, c :: rest =>
    if pat.isPrefixOf (c :: rest) && !pat.isEmpty then
      rep ++ replaceSubGo pat rep n ((c :: rest).drop pat.length)
    else c :: replaceSubGo pat rep n rest

/-- `s.replace(pat, rep)` (left-to-right, non-overlapping). -/
def replaceSub (pat rep l : List Char) : List Char :=
  replaceSubGo pat rep l.length l

/-- The entity-decoding prelude of `_parse_item_from_text`:
`&#39;` → `'`, then `&quot;` → `"`, then `&amp;` → `&`. -/
def decodeEntities (text : String) : List Char :=
  replaceSub "&amp;".data "&".data
    (replaceSub "&quot;".data "\"".data
      (replaceSub "&#39;".data "'".data text.data))

/-- `PrepWorxEmailParser._parse_item_from_text`: decode the three HTML
entities, take the leftmost ASIN, derive the quantity through the
tab / after-ASIN / end-of-line pattern ladder (default 1), and cut the item
name at the first `" - " + asin`. -/
def parse_item_from_text (text : String) : Option PrepWorxItem :=
  let clean_text := decodeEntities text
  match asinAnyMatch clean_text with
  | none => none
  | some asin =>
    let quantity : Int :=
      match tabQtyMatch clean_text with
      | some q => q
      | none =>
        match asinQtyMatch asin.data clean_text with
        | some q => q
        | none =>
          match endQtyMatch clean_text with
          | some q => q
          | none => 1
    match findSub clean_text (" - " ++ asin).data with
    | none => none
    | some pos =>
      let item_name := pyStrip (String.mk (clean_text.take pos))
      if item_name == "" then none
      else some ⟨item_name, asin, quantity, extract_size_from_item_name item_name⟩

end PrepWorxEmailParser

namespace PrepWorxCheckinProcessor

open PrepWorxEmailParser

/-- The shipment data consumed by `process_and_store` (the `date_time`,
`secondary_code` and `email_date` fields are never read by the processor). -/
structure PrepWorxShipmentData where
  shipment_number : String
  order_number : String
  items : List PrepWorxItem
deriving Repr, DecidableEq

/-- Python truthiness of an optional string column (`None` and `""` are
falsy). -/
def optStrFalsy : Option String → Bool
  | none => true
  | some s => s == ""

/-- Replace the first element satisfying `p` (the row handed back by
`.first()`, mutated in place by the source). -/
def updateFirst (p : α → Bool) (f : α → α) : List α → List α
  | [] => []
  | x :: xs => if p x then f x :: xs else x :: updateFirst p f xs

/-- The find-or-create block of `process_and_store`: query `asin_bank` by
`asin`; create (with `lead_id` the order number, or `"PREPWORX"` when that is
falsy, and the item's extracted size) and flush when absent; otherwise
backfill a missing size from the item.  Returns the store and the row used. -/
def find_or_create_asin (s : Store) (order_number : String)
    (item : PrepWorxItem) : Store × AsinBank :=
  match s.asin_bank.find? (fun a => a.asin == item.asin) with
  | none =>
    let entry : AsinBank :=
      { id := s.next_asin_id
        lead_id := if order_number == "" then "PREPWORX" else order_number
        asin := item.asin
        size := item.size }
    ({ s with asin_bank := s.asin_bank ++ [entry]
              next_asin_id := s.next_asin_id + 1 }, entry)
  | some a =>
    if optStrFalsy a.size && !optStrFalsy item.size then
      let a' : AsinBank := { a with size := item.size }
      ({ s with asin_bank := updateFirst (fun b => b.asin == item.asin)
                  (fun b => { b with size := item.size }) s.asin_bank }, a')
    else (s, a)

/-- The per-item dedup key
`(order_number, asin_bank_id, item_name, quantity)`. -/
abbrev BatchKey := String × Nat × String × Int

/-- The dedup tuple of a stored `checkin` row. -/
def checkinTuple (c : Checkin) : BatchKey :=
  (c.order_number, c.asin_bank_id, c.item_name, c.quantity)

/-- One iteration of the item loop of
`PrepWorxCheckinProcessor.process_and_store`: find-or-create the `asin_bank`
row, skip when the dedup key was already handled in this batch or already
exists as a `checkin` row, otherwise record the key and store the row.
Returns the store, the in-batch set, and whether the row was stored
(`false` means skipped). -/
def store_step (order_number : String) (s : Store) (batch : List BatchKey)
    (item : PrepWorxItem) : Store × List BatchKey × Bool :=
  let fc := find_or_create_asin s order_number item
  let key : BatchKey := (order_number, fc.2.id, item.item_name, item.quantity)
  if key ∈ batch then (fc.1, batch, false)
  else if fc.1.checkins.any (fun c => checkinTuple c == key) then
    (fc.1, batch, false)
  else
    ({ fc.1 with checkins := fc.1.checkins
        ++ [⟨order_number, item.item_name, fc.2.id, item.quantity⟩] },
      key :: batch, true)

/-- The item loop of `process_and_store`: iterate `store_step`, counting
stored and skipped items.  The per-item `except` arm of the source collects
database errors, none of which are reachable in the embedding. -/
def process_and_store_go (order_number : String) :
    Store → List BatchKey → List PrepWorxItem → Store × Nat × Nat
  | s, _, [] => (s, 0, 0)
  | s, batch, item :: rest =>
    let st := store_step order_number s batch item
    let r := process_and_store_go order_number st.1 st.2.1 rest
    if st.2.2 then (r.1, r.2.1 + 1, r.2.2) else (r.1, r.2.1, r.2.2 + 1)

/-- Number of stored `checkin` rows carrying the given dedup tuple. -/
def countCheckin (s : Store) (t : BatchKey) : Nat :=
  s.checkins.countP (fun c => checkinTuple c == t)

/-- Number of stored `asin_bank` rows carrying the given ASIN. -/
def countAsin (s : Store) (a : String) : Nat :=
  s.asin_bank.countP (fun e => e.asin == a)

/-- The result dict of `process_and_store` (`shipment_number` /
`order_number` echoes omitted). -/
structure StoreResult where
  success : Bool
  total_items : Nat
  stored_count : Nat
  skipped_count : Nat
  errors : List String
deriving Repr, DecidableEq

/-- `PrepWorxCheckinProcessor.process_and_store`: run the item loop with an
empty in-batch set and commit. -/
def process_and_store (s : Store) (sd : PrepWorxShipmentData) :
    Store × StoreResult :=
  let r := process_and_store_go sd.order_number s [] sd.items
  (r.1,
    { success := true
      total_items := sd.items.length
      stored_count := r.2.1
      skipped_count := r.2.2
      errors := [] })

end PrepWorxCheckinProcessor

end PT0


namespace PT0

/-! ## Concrete fixtures used by witness and counterexample theorems -/

/-- A store holding the Footlocker retailer and one sourcing lead. -/
def flStore : Store :=
  { retailers := [⟨"Foot Locker Inc"⟩]
    oa_sourcing := [⟨1, "L1", "U1", some "SKU1", "Shoe", some 100⟩]
    asin_bank := []
    purchases := []
    checkins := []
    next_asin_id := 1 }

/-- An order whose single item reconciles against `flStore`. -/
def flOrder : RetailerOrderProcessor.FootlockerOrderData :=
  ⟨"P123", [⟨"U1", "8", 1⟩]⟩

/-- An order whose single item matches no sourcing lead of `flStore`. -/
def flOrderUnmatched : RetailerOrderProcessor.FootlockerOrderData :=
  ⟨"P999", [⟨"UX", "8", 1⟩]⟩

/-- An empty store for the PrepWorx fixtures. -/
def pwEmptyStore : Store :=
  { retailers := [], oa_sourcing := [], asin_bank := [], purchases := []
    checkins := [], next_asin_id := 5 }

/-- A store already holding an `asin_bank` row for ASIN `B000000001`. -/
def pwStoreWithAsin : Store :=
  { retailers := [], oa_sourcing := []
    asin_bank := [⟨3, "LEAD", "B000000001", some "9"⟩]
    purchases := [], checkins := [], next_asin_id := 5 }

/-- A shipment listing the same row twice (identical ASIN, name, quantity). -/
def pwShipmentTwice : PrepWorxCheckinProcessor.PrepWorxShipmentData :=
  ⟨"P001", "P001",
    [⟨"Shoe A 9 X - Y", "B000000001", 2, some "9"⟩,
     ⟨"Shoe A 9 X - Y", "B000000001", 2, some "9"⟩]⟩

/-- The expected parse of the zero-quantity PrepWorx table row. -/
def pwItemZero : PrepWorxEmailParser.PrepWorxItem :=
  ⟨"Adidas Gazelle 9 IG4386", "B0DDXBXNSP", 0, some "9"⟩

/-- The expected parse of the negative-quantity PrepWorx text row. -/
def pwItemNeg : PrepWorxEmailParser.PrepWorxItem :=
  ⟨"On Running Cloudmonster Frost Acacia 10.5 61.97786", "B0C5QGLQBN", -4,
    some "10.5"⟩

end PT0

namespace PT0

open FootlockerEmailParser

/-- C5: `_clean_size` strips a redundant trailing `.0` and leading zeros from
decimal size strings (`"06.0"` → `"6"`, `"10.5"` → `"10.5"`,
`"14.0"` → `"14"`) and leaves any string not of the decimal `\d{1,2}.\d`
shape unchanged. -/
theorem clean_size_normalizes :
    clean_size "06.0" = "6" ∧ clean_size "10.5" = "10.5"
      ∧ clean_size "14.0" = "14"
      ∧ ∀ s : String, decFormat s.data = false → clean_size s = s := by
  refine ⟨by decide, by decide, by decide, ?_⟩
  intro s h
  simp [clean_size, h]

/-- Witness for `clean_size_normalizes`: a non-decimal size string is
returned unchanged. -/
theorem clean_size_normalizes_witness : clean_size "8Y" = "8Y" :=
  clean_size_normalizes.2.2.2 "8Y" (by decide)

/-- C8: parsing the PrepWorx table row with the given item cell and quantity
cell `"2"` yields exactly the claimed item name, ASIN, quantity and size. -/
theorem prepworx_table_row_scenario :
    PrepWorxEmailParser.parse_item_from_table_cells
      "Nike Air Max 270 GS Black/Orange/Red 6.5 943345-037 - B0DJDXB819" "2"
      = some ⟨"Nike Air Max 270 GS Black/Orange/Red 6.5 943345-037",
          "B0DJDXB819", 2, some "6.5"⟩ := by decide

/-- C3 counterexample: with two anchors and a single size/quantity candidate
pair, the second anchor's windowed search finds the pair already consumed and
the fallback hands the very same pair out again, so the same (size, quantity)
text is assigned to both items — refuting "no pair is ever assigned to two
items". -/
theorem pairing_exclusivity_counterexample :
    (extract_items ["http://x/EBFL2/AAA1.png", "http://x/EBFL2/BBB2.png"]
        [⟨"8", "Size8"⟩, ⟨"1", "Qty1"⟩]).map (fun it => (it.size, it.quantity))
      = [("8", 1), ("8", 1)] := by decide

/-- C3 amended: pairs returned through the windowed `available_pairs` search
are always outside the used-pairs set (so anchors served by that path get
mutually distinct pairs), and in the spec's two-anchor four-candidate
scenario the two items do receive distinct pairs; exclusivity can fail only
through the no-pair fallback, which does not consult the used set. -/
theorem pairing_exclusivity_amended :
    (∀ data used p, p ∈ availablePairs data used → (p.size, p.quantity) ∉ used)
      ∧ ((extract_items ["http://x/EBFL2/AAA1.png", "http://x/EBFL2/BBB2.png"]
            [⟨"8", "Size8"⟩, ⟨"1", "Qty1"⟩, ⟨"9", "Size9"⟩, ⟨"2", "Qty2"⟩]).map
              (fun it => (it.size, it.quantity))
          = [("8", 1), ("9", 1)]
        ∧ ("8", (1 : Nat)) ≠ ("9", (1 : Nat))) := by
  constructor
  · intro data used p hp hmem
    simp only [availablePairs, List.mem_flatten, List.mem_map] at hp
    obtain ⟨l, ⟨q, hq, rfl⟩, hpl⟩ := hp
    by_cases h1 : q.2.type == FragType.size
    · simp only [h1, if_true] at hpl
      cases h2 : firstQtyInWindow data q.1 with
      | none => simp [h2] at hpl
      | some jq =>
        obtain ⟨j, qv⟩ := jq
        simp only [h2] at hpl
        by_cases h3 : (q.2.value, qv) ∈ used
        · simp [h3] at hpl
        · simp only [h3, if_false, List.mem_singleton] at hpl
          subst hpl
          exact h3 hmem
    · simp [h1] at hpl
  · exact ⟨by decide, by decide⟩

/-- Witness for `pairing_exclusivity_amended`: the sole available pair of a
two-fragment document with an empty used set is indeed not in that set. -/
theorem pairing_exclusivity_amended_witness :
    (("8", "1") : String × String) ∉ ([] : List (String × String)) :=
  pairing_exclusivity_amended.1 [⟨.size, "8"⟩, ⟨.quantity, "1"⟩] []
    ⟨"8", "1", 1⟩ (by decide)

/-- C4 counterexample: `_is_valid_size` accepts the out-of-range decimal
`"99.0"` (its decimal branch has no numeric range check), and extraction
accepts it as an item's size (normalized to `"99"`) when it is the closest
candidate. -/
theorem size_plausibility_counterexample :
    is_valid_size "99.0" = true
      ∧ extract_items ["http://x/EBFL2/ABC1.png"]
          [⟨"99.0", "Size99.0"⟩, ⟨"1", "Qty1"⟩]
        = [⟨"ABC1", "99", 1⟩] := by decide

/-- C4 amended: the plausibility filter range-checks only whole-number
candidates (a `\d{1,2}` string is valid iff its value lies in 4–18), while
every candidate of the decimal shape `\d{1,2}.\d` passes regardless of
numeric value — so `"99.0"` is accepted by extraction even though the whole
number `"99"` would be rejected. -/
theorem size_plausibility_amended :
    (∀ l : List Char, decFormat l = true → is_valid_size (String.mk l) = true)
      ∧ (∀ s : String, intFormat s.data = true →
          (is_valid_size s = true
            ↔ 4 ≤ digitsToNat s.data ∧ digitsToNat s.data ≤ 18))
      ∧ extract_items ["http://x/EBFL2/ABC1.png"]
          [⟨"99.0", "Size99.0"⟩, ⟨"1", "Qty1"⟩]
        = [⟨"ABC1", "99", 1⟩] := by
  refine ⟨?_, ?_, by decide⟩
  · intro l h
    simp [is_valid_size, h]
  · intro s h
    obtain ⟨l⟩ := s
    have h2 := h
    simp only [intFormat, Bool.and_eq_true, Bool.or_eq_true, beq_iff_eq,
      List.all_eq_true] at h2
    have hdec : decFormat l = false := by
      rcases l with _ | ⟨a, _ | ⟨b, _ | ⟨c, t⟩⟩⟩
      · simp at h2
      · rfl
      · rfl
      · simp at h2
    simp [is_valid_size, hdec, h, Bool.and_eq_true, decide_eq_true_iff]

/-- Witness for `size_plausibility_amended`: a decimal-shape candidate is
accepted by the filter. -/
theorem size_plausibility_amended_witness :
    is_valid_size (String.mk ['9', '.', '5']) = true :=
  size_plausibility_amended.1 ['9', '.', '5'] (by decide)

end PT0

namespace PT0

open PrepWorxEmailParser

/-- C9: PrepWorx item parsing preserves the parsed integer quantity exactly,
including zero and negative adjustment values: whenever the quantity cell of
a table row parses as an integer `q`, the extracted item carries `q`, and
whenever the trailing tab-quantity pattern of a text row yields `q`, the
extracted item carries `q`. -/
theorem prepworx_quantity_preserved :
    (∀ item_text quantity_text (q : Int) it,
        pyInt (pyStrip quantity_text) = some q →
        parse_item_from_table_cells item_text quantity_text = some it →
        it.quantity = q)
      ∧ (∀ line (q : Int) it,
        tabQtyMatch (decodeEntities line) = some q →
        parse_item_from_text line = some it →
        it.quantity = q) := by
  constructor
  · intro t qt q it hq hp
    simp only [parse_item_from_table_cells] at hp
    cases e1 : asinEndMatch (pyStrip t).data with
    | none => simp only [e1] at hp; cases hp
    | some asin =>
      simp only [e1] at hp
      cases e2 : rfindSub (pyStrip t).data (" - " ++ asin).data with
      | none => simp only [e2] at hp; cases hp
      | some pos =>
        simp only [e2, hq] at hp
        split at hp
        · cases hp
        · cases hp
          rfl
  · intro line q it hq hp
    simp only [parse_item_from_text] at hp
    cases e1 : asinAnyMatch (decodeEntities line) with
    | none => simp only [e1] at hp; cases hp
    | some asin =>
      simp only [e1, hq] at hp
      cases e2 : findSub (decodeEntities line) (" - " ++ asin).data with
      | none => simp only [e2] at hp; cases hp
      | some pos =>
        simp only [e2] at hp
        split at hp
        · cases hp
        · cases hp
          rfl

/-- Witness for `prepworx_quantity_preserved`: a zero table-cell quantity and
a negative tab-separated text quantity are both carried through verbatim. -/
theorem prepworx_quantity_preserved_witness :
    pwItemZero.quantity = 0 ∧ pwItemNeg.quantity = -4 :=
  ⟨prepworx_quantity_preserved.1 "Adidas Gazelle 9 IG4386 - B0DDXBXNSP" "0" 0
      pwItemZero (by decide) (by decide),
    prepworx_quantity_preserved.2
      "On Running Cloudmonster Frost Acacia 10.5 61.97786 - B0C5QGLQBN\t-4"
      (-4) pwItemNeg (by decide) (by decide)⟩

end PT0

namespace PT0

namespace RetailerOrderProcessor

/-- `_create_purchase_tracker_record` either fails leaving the store
unchanged (no sourcing lead matches), or appends exactly one record carrying
the given order number. -/
theorem create_record_cases (s : Store) (onum : String)
    (item : FootlockerEmailParser.FootlockerOrderItem) :
    create_purchase_tracker_record s onum item = (s, false)
      ∨ ∃ r : PurchaseTracker, r.order_number = onum
          ∧ create_purchase_tracker_record s onum item
            = ({ s with purchases := s.purchases ++ [r] }, true) := by
  cases e : s.oa_sourcing.find? (fun oa => oa.unique_id == item.unique_id) with
  | none =>
    left
    simp [create_purchase_tracker_record, e]
  | some oa =>
    right
    refine ⟨{ oa_sourcing_id := oa.id
              asin_bank_id := (s.asin_bank.find? (fun a =>
                a.lead_id == oa.lead_id && a.size == some item.size)).map (·.id)
              lead_id := oa.lead_id
              order_number := onum
              og_qty := item.quantity
              final_qty := item.quantity
              rsp := oa.rsp
              fba_msku := item.size ++ "-" ++ (oa.product_sku.getD "UNKNOWN")
                ++ "-" ++ onum
              status := "Ordered"
              audited := false }, rfl, ?_⟩
    simp [create_purchase_tracker_record, e]

/-- `process_items` appends exactly `created_count` records, all carrying the
given order number, and changes no other store field. -/
theorem process_items_spec (onum : String) :
    ∀ (items : List FootlockerEmailParser.FootlockerOrderItem) (s : Store),
      ∃ new : List PurchaseTracker,
        (process_items onum s items).1
            = { s with purchases := s.purchases ++ new }
          ∧ (∀ r ∈ new, r.order_number = onum)
          ∧ new.length = (process_items onum s items).2.1 := by
  intro items
  induction items with
  | nil =>
    intro s
    exact ⟨[], by simp [process_items], by simp, by simp [process_items]⟩
  | cons item rest ih =>
    intro s
    rcases create_record_cases s onum item with h | ⟨r, hr, h⟩
    · obtain ⟨new, h1, h2, h3⟩ := ih s
      refine ⟨new, ?_, h2, ?_⟩
      · simp [process_items, h, h1]
      · simp [process_items, h, h3]
    · obtain ⟨new, h1, h2, h3⟩ := ih ({ s with purchases := s.purchases ++ [r] })
      refine ⟨r :: new, ?_, ?_, ?_⟩
      · simp [process_items, h, h1]
      · intro x hx
        rcases List.mem_cons.mp hx with rfl | hx
        · exact hr
        · exact h2 x hx
      · simp [process_items, h, ← h3]
      
/-- A successful `_process_order` leaves at least one `purchase_tracker` row
with the order's number in the store. -/
theorem process_order_success_mem (s : Store) (o : FootlockerOrderData) :
    (process_order s o).2.1 = true →
    ∃ r ∈ (process_order s o).1.purchases, r.order_number = o.order_number := by
  intro h
  rcases e : s.retailers.find? (fun r =>
      ilike r.name "Footlocker" || ilike r.name "Foot Locker") with _ | w
  · simp only [process_order, e] at h
    cases h
  · simp only [process_order, e] at h ⊢
    obtain ⟨new, h1, h2, h3⟩ := process_items_spec o.order_number o.items s
    by_cases hz : ((process_items o.order_number s o.items).2.1 == 0) = true
    · rw [if_pos hz] at h
      simp at h
    · rw [if_neg hz] at h ⊢
      cases new with
      | nil =>
        exfalso
        apply hz
        simp [← h3]
      | cons r0 tl =>
        refine ⟨r0, ?_, h2 r0 (by simp)⟩
        rw [h1]
        simp

/-- C1: if a `purchase_tracker` row with the order's number already exists,
processing the document skips it as a duplicate (counted under
`skipped_duplicate`, not `processed` or `errors`), creates no records, and
still tags the document processed; consequently a second run over a document
that was just processed successfully is a no-op on the store. -/
theorem duplicate_order_skip_idempotent (s : Store) (o : FootlockerOrderData) :
    (is_order_duplicate s o.order_number = true →
        process_footlocker_email s (some o)
          = (s, ⟨0, 1, 0⟩, some GTag.processedTag))
      ∧ ((process_footlocker_email s (some o)).2.1.processed = 1 →
        process_footlocker_email (process_footlocker_email s (some o)).1 (some o)
          = ((process_footlocker_email s (some o)).1,
              ⟨0, 1, 0⟩, some GTag.processedTag)) := by
  constructor
  · intro h
    simp [process_footlocker_email, h]
  · intro h
    cases hdup : is_order_duplicate s o.order_number with
    | true => simp [process_footlocker_email, hdup] at h
    | false =>
      cases hsucc : (process_order s o).2.1 with
      | false => simp [process_footlocker_email, hdup, hsucc] at h
      | true =>
        have hfst : (process_footlocker_email s (some o)).1 = (process_order s o).1 := by
          simp [process_footlocker_email, hdup, hsucc]
        obtain ⟨r, hrmem, hrnum⟩ := process_order_success_mem s o hsucc
        have hdup2 : is_order_duplicate (process_order s o).1 o.order_number = true := by
          simp only [is_order_duplicate, List.any_eq_true]
          exact ⟨r, hrmem, by simp [hrnum]⟩
        rw [hfst]
        simp [process_footlocker_email, hdup2]

/-- Witness for `duplicate_order_skip_idempotent`: after a first successful
run over `flOrder`, a second run reports one `skipped_duplicate` and leaves
the store untouched. -/
theorem duplicate_order_skip_idempotent_witness :
    process_footlocker_email
        (process_footlocker_email flStore (some flOrder)).1 (some flOrder)
      = ((process_footlocker_email flStore (some flOrder)).1,
          ⟨0, 1, 0⟩, some GTag.processedTag) :=
  (duplicate_order_skip_idempotent flStore flOrder).2 (by decide)

/-- C2: an order none of whose items matches any sourcing lead produces zero
`purchase_tracker` rows (the store is returned unchanged, the net effect of
the rolled-back/empty transaction), is reported as an error rather than a
success, and the document is tagged errored rather than processed. -/
theorem all_items_unmatched_failure (s : Store) (o : FootlockerOrderData)
    (hdup : is_order_duplicate s o.order_number = false)
    (hall : ∀ item ∈ o.items, ∀ oa ∈ s.oa_sourcing,
      oa.unique_id ≠ item.unique_id) :
    process_footlocker_email s (some o) = (s, ⟨0, 0, 1⟩, some GTag.errorTag) := by
  have hfind : ∀ item ∈ o.items,
      s.oa_sourcing.find? (fun oa => oa.unique_id == item.unique_id) = none := by
    intro item hit
    apply List.find?_eq_none.mpr
    intro oa hoa
    simp only [beq_eq_false_iff_ne, ne_eq, Bool.not_eq_true, beq_eq_false_iff_ne]
    exact hall item hit oa hoa
  have hpi : ∀ (items : List FootlockerEmailParser.FootlockerOrderItem),
      (∀ item ∈ items,
        s.oa_sourcing.find? (fun oa => oa.unique_id == item.unique_id) = none) →
      process_items o.order_number s items = (s, 0, items.length) := by
    intro items
    induction items with
    | nil => intro _; rfl
    | cons item rest ih =>
      intro hall2
      have hc : create_purchase_tracker_record s o.order_number item
          = (s, false) := by
        simp [create_purchase_tracker_record, hall2 item (by simp)]
      simp [process_items, hc, ih (fun it hit => hall2 it (by simp [hit]))]
  have hpo : (process_order s o).1 = s ∧ (process_order s o).2.1 = false := by
    rcases e : s.retailers.find? (fun r =>
        ilike r.name "Footlocker" || ilike r.name "Foot Locker") with _ | w
    · simp [process_order, e]
    · simp [process_order, e, hpi o.items hfind]
  simp [process_footlocker_email, hdup, hpo.1, hpo.2]

/-- Witness for `all_items_unmatched_failure`: processing `flOrderUnmatched`
(whose only item reconciles against nothing in `flStore`) fails with an
error count of one, an errored tag, and an unchanged store. -/
theorem all_items_unmatched_failure_witness :
    process_footlocker_email flStore (some flOrderUnmatched)
      = (flStore, ⟨0, 0, 1⟩, some GTag.errorTag) :=
  all_items_unmatched_failure flStore flOrderUnmatched (by decide) (by decide)

end RetailerOrderProcessor

end PT0

namespace PT0

namespace PrepWorxCheckinProcessor

/-- `find_or_create_asin` never touches the stored `checkin` rows. -/
theorem foc_checkins (s : Store) (onum : String)
    (item : PrepWorxEmailParser.PrepWorxItem) :
    (find_or_create_asin s onum item).1.checkins = s.checkins := by
  rcases e : s.asin_bank.find? (fun a => a.asin == item.asin) with _ | a
  · simp [find_or_create_asin, e]
  · simp only [find_or_create_asin, e]
    split <;> rfl

/-- `updateFirst` with an update that preserves `p` preserves `countP p`. -/
theorem updateFirst_countP {α : Type} (p q : α → Bool) (f : α → α)
    (hf : ∀ x, p (f x) = p x) :
    ∀ l : List α, ((updateFirst q f l).countP p) = l.countP p := by
  intro l
  induction l with
  | nil => rfl
  | cons x xs ih =>
    by_cases hq : q x = true
    · simp [updateFirst, hq, List.countP_cons, hf]
    · simp [updateFirst, hq, List.countP_cons, ih]

/-- Counting law of `find_or_create_asin`: a row is inserted only when no
row with the item's ASIN exists (the count goes 0 → 1); in every other case
every per-ASIN count is unchanged (the found row is at most size-backfilled,
which preserves its ASIN). -/
theorem foc_countAsin (s : Store) (onum : String)
    (item : PrepWorxEmailParser.PrepWorxItem) (a : String) :
    countAsin (find_or_create_asin s onum item).1 a
      = if a = item.asin ∧ countAsin s a = 0 then 1 else countAsin s a := by
  rcases e : s.asin_bank.find? (fun b => b.asin == item.asin) with _ | b
  · have h0 : countAsin s item.asin = 0 := by
      rw [countAsin, List.countP_eq_zero]
      intro x hx
      simpa using List.find?_eq_none.mp e x hx
    by_cases ha : a = item.asin
    · subst ha
      rw [countAsin] at h0
      simp [find_or_create_asin, e, countAsin, List.countP_append,
        List.countP_cons, h0]
    · simp [find_or_create_asin, e, countAsin, List.countP_append,
        List.countP_cons, ha, Ne.symm ha]
  · have h1 : 0 < countAsin s item.asin := by
      rw [countAsin, List.countP_pos_iff]
      refine ⟨b, List.mem_of_find?_eq_some e, ?_⟩
      simpa using List.find?_some e
    have h2 : countAsin (find_or_create_asin s onum item).1 a
        = countAsin s a := by
      simp only [find_or_create_asin, e]
      split
      · simp only [countAsin]
        exact updateFirst_countP (fun e => e.asin == a)
          (fun c => c.asin == item.asin)
          (fun c => { c with size := item.size }) (fun x => rfl) s.asin_bank
      · rfl
    rw [h2, if_neg]
    rintro ⟨rfl, hc⟩
    omega

end PrepWorxCheckinProcessor

end PT0

namespace PT0

namespace PrepWorxCheckinProcessor

/-- Appending one `checkin` row adds one to its tuple's count and nothing to
any other count. -/
theorem countCheckin_append (st : Store) (c : Checkin) (u : BatchKey) :
    countCheckin { st with checkins := st.checkins ++ [c] } u
      = countCheckin st u + if checkinTuple c == u then 1 else 0 := by
  simp [countCheckin, List.countP_append, List.countP_cons]

/-- One `store_step` never removes `checkin` rows and never lets any dedup
tuple's count grow beyond one: a row is stored only when its tuple is absent
both from the in-batch set and from the store. -/
theorem step_countCheckin (onum : String) (s : Store) (batch : List BatchKey)
    (item : PrepWorxEmailParser.PrepWorxItem) (t : BatchKey) :
    countCheckin s t ≤ countCheckin (store_step onum s batch item).1 t
      ∧ countCheckin (store_step onum s batch item).1 t
          ≤ max (countCheckin s t) 1 := by
  have hfc : ∀ u, countCheckin (find_or_create_asin s onum item).1 u
      = countCheckin s u := by
    intro u
    rw [countCheckin, countCheckin, foc_checkins]
  simp only [store_step]
  split
  · dsimp only
    rw [hfc]
    exact ⟨Nat.le_refl _, Nat.le_max_left _ _⟩
  · split
    · dsimp only
      rw [hfc]
      exact ⟨Nat.le_refl _, Nat.le_max_left _ _⟩
    · rename_i hdb
      dsimp only
      have hkey0 : countCheckin (find_or_create_asin s onum item).1
          (onum, (find_or_create_asin s onum item).2.id, item.item_name,
            item.quantity) = 0 := by
        rw [countCheckin, List.countP_eq_zero]
        intro c hc hcc
        exact hdb (List.any_eq_true.mpr ⟨c, hc, hcc⟩)
      rw [countCheckin_append]
      by_cases ht : (checkinTuple ⟨onum, item.item_name,
          (find_or_create_asin s onum item).2.id, item.quantity⟩ == t) = true
      · have htt : (onum, (find_or_create_asin s onum item).2.id,
            item.item_name, item.quantity) = t := by
          simpa [checkinTuple] using ht
        rw [if_pos ht, hfc]
        have h0 : countCheckin s t = 0 := by
          rw [← htt, ← hfc]
          exact hkey0
        omega
      · rw [if_neg ht, hfc]
        omega

end PrepWorxCheckinProcessor

end PT0

namespace PT0

namespace PrepWorxCheckinProcessor

/-- `store_step` follows the `find_or_create_asin` counting law: per-ASIN
counts change only by a 0 → 1 creation (the checkin write touches no
`asin_bank` row). -/
theorem step_countAsin (onum : String) (s : Store) (batch : List BatchKey)
    (item : PrepWorxEmailParser.PrepWorxItem) (a : String) :
    countAsin (store_step onum s batch item).1 a
      = if a = item.asin ∧ countAsin s a = 0 then 1 else countAsin s a := by
  simp only [store_step]
  split
  · exact foc_countAsin s onum item a
  · split
    · exact foc_countAsin s onum item a
    · exact foc_countAsin s onum item a

/-- The item loop counts every item exactly once: stored plus skipped equals
the number of items. -/
theorem go_partition (onum : String) :
    ∀ (items : List PrepWorxEmailParser.PrepWorxItem) (s : Store)
      (batch : List BatchKey),
      (process_and_store_go onum s batch items).2.1
          + (process_and_store_go onum s batch items).2.2 = items.length := by
  intro items
  induction items with
  | nil => intro s batch; rfl
  | cons item rest ih =>
    intro s batch
    have h := ih (store_step onum s batch item).1
      (store_step onum s batch item).2.1
    simp only [process_and_store_go, List.length_cons]
    split <;> dsimp only <;> omega

/-- The item loop never removes `checkin` rows and never lets a dedup
tuple's count exceed one (relative to its starting store). -/
theorem go_countCheckin (onum : String) :
    ∀ (items : List PrepWorxEmailParser.PrepWorxItem) (s : Store)
      (batch : List BatchKey) (t : BatchKey),
      countCheckin s t
          ≤ countCheckin (process_and_store_go onum s batch items).1 t
        ∧ countCheckin (process_and_store_go onum s batch items).1 t
            ≤ max (countCheckin s t) 1 := by
  intro items
  induction items with
  | nil => intro s batch t; exact ⟨Nat.le_refl _, Nat.le_max_left _ _⟩
  | cons item rest ih =>
    intro s batch t
    have hstep := step_countCheckin onum s batch item t
    have h := ih (store_step onum s batch item).1
      (store_step onum s batch item).2.1 t
    simp only [process_and_store_go]
    split <;> dsimp only <;> exact ⟨by omega, by omega⟩

/-- The item loop inserts an `asin_bank` row for an ASIN only when none
exists, so per-ASIN counts are monotone and bounded by `max initial 1`. -/
theorem go_countAsin (onum : String) :
    ∀ (items : List PrepWorxEmailParser.PrepWorxItem) (s : Store)
      (batch : List BatchKey) (a : String),
      countAsin s a ≤ countAsin (process_and_store_go onum s batch items).1 a
        ∧ countAsin (process_and_store_go onum s batch items).1 a
            ≤ max (countAsin s a) 1 := by
  intro items
  induction items with
  | nil => intro s batch a; exact ⟨Nat.le_refl _, Nat.le_max_left _ _⟩
  | cons item rest ih =>
    intro s batch a
    have hstep := step_countAsin onum s batch item a
    have h := ih (store_step onum s batch item).1
      (store_step onum s batch item).2.1 a
    simp only [process_and_store_go]
    by_cases hc : a = item.asin ∧ countAsin s a = 0
    · rw [if_pos hc] at hstep
      obtain ⟨_, hc2⟩ := hc
      split <;> dsimp only <;> exact ⟨by omega, by omega⟩
    · rw [if_neg hc] at hstep
      split <;> dsimp only <;> exact ⟨by omega, by omega⟩

/-- C6: shipment write deduplication is per item, with both the in-batch set
and the persisted-store check: for every dedup tuple
`(order_number, asin_bank_id, item_name, quantity)`, a run of
`process_and_store` never lowers its stored count and never raises it above
`max initial 1` — so two in-batch items sharing a tuple yield at most one
stored row, and an already-persisted tuple yields none; every item not
stored is counted as skipped (stored + skipped covers all items). -/
theorem shipment_per_item_dedup (s : Store)
    (sd : PrepWorxShipmentData) (t : BatchKey) :
    countCheckin s t ≤ countCheckin (process_and_store s sd).1 t
      ∧ countCheckin (process_and_store s sd).1 t ≤ max (countCheckin s t) 1
      ∧ (process_and_store s sd).2.stored_count
          + (process_and_store s sd).2.skipped_count = sd.items.length := by
  refine ⟨?_, ?_, ?_⟩
  · exact (go_countCheckin sd.order_number sd.items s [] t).1
  · exact (go_countCheckin sd.order_number sd.items s [] t).2
  · exact go_partition sd.order_number sd.items s []

/-- C7: the shipment write path looks `asin_bank` up by ASIN before
inserting: per-ASIN row counts are monotone, never exceed `max initial 1`,
and when a row with the ASIN already exists no new row is created for it
(its count is exactly preserved; at most its missing size is backfilled). -/
theorem asin_bank_lookup_before_insert (s : Store)
    (sd : PrepWorxShipmentData) (a : String) :
    countAsin s a ≤ countAsin (process_and_store s sd).1 a
      ∧ countAsin (process_and_store s sd).1 a ≤ max (countAsin s a) 1
      ∧ (1 ≤ countAsin s a →
          countAsin (process_and_store s sd).1 a = countAsin s a) := by
  have h := go_countAsin sd.order_number sd.items s [] a
  exact ⟨h.1, h.2, fun h1 => by dsimp only [process_and_store]; omega⟩

/-- Witness for `asin_bank_lookup_before_insert`: a store that already holds
the shipment's ASIN gains no second row for it. -/
theorem asin_bank_lookup_before_insert_witness :
    countAsin (process_and_store pwStoreWithAsin pwShipmentTwice).1 "B000000001"
      = countAsin pwStoreWithAsin "B000000001" :=
  (asin_bank_lookup_before_insert pwStoreWithAsin pwShipmentTwice
    "B000000001").2.2 (by decide)

/-- C10: the shipment result partitions the input exactly — stored count
plus skipped count plus the number of error messages equals `total_items`,
which is the number of input items (no error path is reachable in the
embedding, so the error list is empty). -/
theorem process_result_partition (s : Store) (sd : PrepWorxShipmentData) :
    (process_and_store s sd).2.stored_count
        + (process_and_store s sd).2.skipped_count
        + (process_and_store s sd).2.errors.length
      = (process_and_store s sd).2.total_items
      ∧ (process_and_store s sd).2.total_items = sd.items.length := by
  refine ⟨?_, rfl⟩
  have h := go_partition sd.order_number sd.items s []
  dsimp only [process_and_store]
  simpa using h

end PrepWorxCheckinProcessor

end PT0
